import Mathlib

/-!
# StarterProjectCharacter: a shallow embedding

The character controller of `Game/Source/StarterProject/StarterProjectCharacter.cpp`
is embedded as pure functions.  Every method takes the game state (the character and
the world it lives in) and returns the state it leaves behind together with the list
of calls it issued into the engine, in program order.  `float` arithmetic is taken as
exact: scalars range over an arbitrary linearly ordered field `α` (for instance `ℚ`,
where everything below evaluates, or `ℝ`).  A pointer is an `Option`; dereferencing a
null pointer and a failed `check` are faults.
-/

set_option linter.dupNamespace false

namespace StarterProject

/-! ## Engine value types -/

/-- Ways in which a method can stop abnormally. -/
inductive Fault where
  /-- A null pointer was dereferenced (`Ptr->Member` with `Ptr == nullptr`). -/
  | NullDereference
  /-- The engine assertion `check(Expr)` found `Expr` false. -/
  | CheckFailed
  deriving DecidableEq, Repr

/-- The engine vector `FVector`. -/
structure FVector (α : Type) where
  X : α
  Y : α
  Z : α
  deriving DecidableEq, Repr

/-- The engine rotator `FRotator(InPitch, InYaw, InRoll)`, in degrees. -/
structure FRotator (α : Type) where
  Pitch : α
  Yaw : α
  Roll : α
  deriving DecidableEq, Repr

namespace FVector

variable {α : Type} [LinearOrderedField α]

/-- The engine constant `FVector::ZeroVector`. -/
def ZeroVector : FVector α := ⟨0, 0, 0⟩

/-- Componentwise sum, `FVector::operator+`. -/
def add (a b : FVector α) : FVector α := ⟨a.X + b.X, a.Y + b.Y, a.Z + b.Z⟩

/-- Componentwise difference, `FVector::operator-`. -/
def sub (a b : FVector α) : FVector α := ⟨a.X - b.X, a.Y - b.Y, a.Z - b.Z⟩

/-- Scaling by a scalar, `FVector::operator*(float)`. -/
def scale (v : FVector α) (s : α) : FVector α := ⟨v.X * s, v.Y * s, v.Z * s⟩

/-- Dot product, `FVector::DotProduct`. -/
def DotProduct (a b : FVector α) : α := a.X * b.X + a.Y * b.Y + a.Z * b.Z

/-- Squared length, `FVector::SizeSquared`. -/
def SizeSquared (v : FVector α) : α := v.X * v.X + v.Y * v.Y + v.Z * v.Z

instance : Add (FVector α) := ⟨add⟩

instance : Sub (FVector α) := ⟨sub⟩

instance : HMul (FVector α) α (FVector α) := ⟨scale⟩

end FVector

/-- The scalar routines of the engine math library that the rotation matrix and the
vector normalisation go through.  They are not part of this repository, so they are
parameters of the embedding. -/
structure FMath (α : Type) where
  /-- The constant `PI`. -/
  PI : α
  /-- Sine of an angle in radians (`FMath::SinCos`, first output). -/
  Sin : α → α
  /-- Cosine of an angle in radians (`FMath::SinCos`, second output). -/
  Cos : α → α
  /-- Reciprocal square root, `FMath::InvSqrt`. -/
  InvSqrt : α → α

namespace FMath

variable {α : Type} [LinearOrderedField α]

/-- The engine conversion `FMath::DegreesToRadians`. -/
def DegreesToRadians (E : FMath α) (Deg : α) : α := Deg * (E.PI / 180)

/-- The engine tolerance `SMALL_NUMBER` (`1.e-8f`). -/
def SMALL_NUMBER : α := 1 / 100000000

/-- The engine normalisation `FVector::GetSafeNormal(SMALL_NUMBER)`: a vector of squared
length one is returned as it is, one of squared length below the tolerance becomes the
zero vector, and any other is scaled by the reciprocal square root of its squared
length. -/
def GetSafeNormal (E : FMath α) (v : FVector α) : FVector α :=
  let SquareSum := v.X * v.X + v.Y * v.Y + v.Z * v.Z
  if SquareSum = 1 then v
  else if SquareSum < SMALL_NUMBER then FVector.ZeroVector
  else
    let Scale := E.InvSqrt SquareSum
    ⟨v.X * Scale, v.Y * Scale, v.Z * Scale⟩

end FMath

/-- The engine axis selector `EAxis::Type`. -/
inductive EAxis where
  | None
  | X
  | Y
  | Z
  deriving DecidableEq, Repr

/-- The rotation part of the engine matrix `FRotationMatrix`: its three axis rows. -/
structure FRotationMatrix (α : Type) where
  Row0 : FVector α
  Row1 : FVector α
  Row2 : FVector α

namespace FRotationMatrix

variable {α : Type} [LinearOrderedField α]

/-- The engine constructor `FRotationMatrix(Rot)`: the rows of the rotation matrix of a
rotator, from the sines and cosines of its pitch, yaw and roll. -/
def ofRotator (E : FMath α) (Rot : FRotator α) : FRotationMatrix α :=
  let SP := E.Sin (E.DegreesToRadians Rot.Pitch)
  let CP := E.Cos (E.DegreesToRadians Rot.Pitch)
  let SY := E.Sin (E.DegreesToRadians Rot.Yaw)
  let CY := E.Cos (E.DegreesToRadians Rot.Yaw)
  let SR := E.Sin (E.DegreesToRadians Rot.Roll)
  let CR := E.Cos (E.DegreesToRadians Rot.Roll)
  { Row0 := ⟨CP * CY, CP * SY, SP⟩
    Row1 := ⟨SR * SP * CY - CR * SY, SR * SP * SY + CR * CY, -SR * CP⟩
    Row2 := ⟨-(CR * SP * CY + SR * SY), CY * SR - CR * SP * SY, CR * CP⟩ }

/-- The engine accessor `FMatrix::GetScaledAxis`. -/
def GetScaledAxis (M : FRotationMatrix α) : EAxis → FVector α
  | EAxis.X => M.Row0
  | EAxis.Y => M.Row1
  | EAxis.Z => M.Row2
  | EAxis.None => FVector.ZeroVector

/-- The engine accessor `FMatrix::GetUnitAxis`: the scaled axis, normalised. -/
def GetUnitAxis (E : FMath α) (M : FRotationMatrix α) (Axis : EAxis) : FVector α :=
  E.GetSafeNormal (M.GetScaledAxis Axis)

end FRotationMatrix

/-! ## Actors, classes and components -/

/-- A class object `UClass`: its name and the names of the interface classes it
implements (its own and the inherited ones). -/
structure UClass where
  Name : String
  Interfaces : List String
  deriving DecidableEq, Repr

/-- The engine query `UClass::ImplementsInterface`. -/
def UClass.ImplementsInterface (C : UClass) (SomeInterface : String) : Bool :=
  C.Interfaces.contains SomeInterface

/-- The class of the Interactable interface, `UInteractable::StaticClass()`. -/
def UInteractable.StaticClass : String := "Interactable"

/-- An actor `AActor`: its identity and its class. -/
structure AActor where
  Id : Nat
  Class : UClass
  deriving DecidableEq, Repr

/-- The accessor `AActor::GetClass`. -/
def AActor.GetClass (A : AActor) : UClass := A.Class

/-- A controller `AController`, with the control rotation `GetControlRotation` returns. -/
structure AController (α : Type) where
  ControlRotation : FRotator α
  deriving DecidableEq, Repr

/-- The accessor `AController::GetControlRotation`. -/
def AController.GetControlRotation {α : Type} (C : AController α) : FRotator α :=
  C.ControlRotation

/-- The collision capsule `UCapsuleComponent`. -/
structure UCapsuleComponent (α : Type) where
  CapsuleRadius : α
  CapsuleHalfHeight : α
  deriving DecidableEq, Repr

/-- The method `UCapsuleComponent::InitCapsuleSize`. -/
def UCapsuleComponent.InitCapsuleSize {α : Type} (_C : UCapsuleComponent α)
    (InRadius InHalfHeight : α) : UCapsuleComponent α :=
  { CapsuleRadius := InRadius, CapsuleHalfHeight := InHalfHeight }

/-- The fields of `UCharacterMovementComponent` the character configures. -/
structure UCharacterMovementComponent (α : Type) where
  bOrientRotationToMovement : Bool
  RotationRate : FRotator α
  JumpZVelocity : α
  AirControl : α
  deriving DecidableEq, Repr

/-- The components a scene component can be attached to in this class. -/
inductive AttachTarget where
  | RootComponent
  | CameraBoom
  deriving DecidableEq, Repr

/-- The camera boom `USpringArmComponent`. -/
structure USpringArmComponent (α : Type) where
  AttachParent : Option AttachTarget
  TargetArmLength : α
  bUsePawnControlRotation : Bool
  deriving DecidableEq, Repr

/-- The engine constant `USpringArmComponent::SocketName`. -/
def USpringArmComponent.SocketName : String := "SpringEndpoint"

/-- The follow camera `UCameraComponent`, with the world location and forward vector
the engine reports for it. -/
structure UCameraComponent (α : Type) where
  AttachParent : Option AttachTarget
  AttachSocketName : Option String
  bUsePawnControlRotation : Bool
  ComponentLocation : FVector α
  ForwardVector : FVector α
  deriving DecidableEq, Repr

/-- The accessor `USceneComponent::GetComponentLocation`. -/
def UCameraComponent.GetComponentLocation {α : Type} (C : UCameraComponent α) : FVector α :=
  C.ComponentLocation

/-- The accessor `USceneComponent::GetForwardVector`. -/
def UCameraComponent.GetForwardVector {α : Type} (C : UCameraComponent α) : FVector α :=
  C.ForwardVector

/-- The state the character inherits from the engine class `ACharacter`. -/
structure ACharacter (α : Type) where
  Actor : AActor
  Controller : Option (AController α)
  bUseControllerRotationPitch : Bool
  bUseControllerRotationYaw : Bool
  bUseControllerRotationRoll : Bool
  CapsuleComponent : UCapsuleComponent α
  CharacterMovement : UCharacterMovementComponent α
  deriving DecidableEq, Repr

/-- The character `AStarterProjectCharacter`: the inherited state and its own members. -/
structure AStarterProjectCharacter (α : Type) extends ACharacter α where
  BaseTurnRate : α
  BaseLookUpRate : α
  CameraBoom : USpringArmComponent α
  FollowCamera : UCameraComponent α
  deriving DecidableEq, Repr

/-- The accessor `AStarterProjectCharacter::GetFollowCamera`. -/
def AStarterProjectCharacter.GetFollowCamera {α : Type} (Self : AStarterProjectCharacter α) :
    UCameraComponent α :=
  Self.FollowCamera

/-! ## The world and the calls into the engine -/

/-- The collision channels of `ECollisionChannel` that occur here. -/
inductive ECollisionChannel where
  | ECC_WorldStatic
  | ECC_WorldDynamic
  | ECC_Visibility
  deriving DecidableEq, Repr

/-- The query parameters `FCollisionQueryParams`: the trace tag, the two flags the
character sets, and the actor the trace ignores. -/
structure FCollisionQueryParams where
  TraceTag : String
  bTraceComplex : Bool
  bReturnPhysicalMaterial : Bool
  IgnoredActor : Option AActor
  deriving DecidableEq, Repr

/-- The constructor `FCollisionQueryParams(InTraceTag, bInTraceComplex, InIgnoreActor)`. -/
def FCollisionQueryParams.new (InTraceTag : String) (bInTraceComplex : Bool)
    (InIgnoreActor : Option AActor) : FCollisionQueryParams :=
  { TraceTag := InTraceTag, bTraceComplex := bInTraceComplex,
    bReturnPhysicalMaterial := false, IgnoredActor := InIgnoreActor }

/-- The part of the trace result `FHitResult` the character reads: the hit actor, a weak
pointer that may be null. -/
structure FHitResult where
  Actor : Option AActor
  deriving DecidableEq, Repr

/-- The world `UWorld`: the frame time and the physics query
`LineTraceSingleByChannel`, which returns whether it hit and the hit result it wrote. -/
structure UWorld (α : Type) where
  DeltaSeconds : α
  LineTraceSingleByChannel :
    FVector α → FVector α → ECollisionChannel → FCollisionQueryParams → Bool × FHitResult

/-- The accessor `UWorld::GetDeltaSeconds`. -/
def UWorld.GetDeltaSeconds {α : Type} (W : UWorld α) : α := W.DeltaSeconds

/-- The key events of `EInputEvent` that occur here. -/
inductive EInputEvent where
  | IE_Pressed
  | IE_Released
  deriving DecidableEq, Repr

/-- The member functions handed to the input component as handlers. -/
inductive Handler where
  | ACharacter_Jump
  | ACharacter_StopJumping
  | APawn_AddControllerYawInput
  | APawn_AddControllerPitchInput
  | MoveForward
  | MoveRight
  | TurnAtRate
  | LookUpAtRate
  | Interact
  | TouchStarted
  | TouchStopped
  deriving DecidableEq, Repr

/-- A call the character issues into the engine or the networking layer. -/
inductive Call (α : Type) where
  /-- The call `Super::BeginPlay()`. -/
  | Super_BeginPlay
  /-- The call `PlayerInputComponent->BindAction(ActionName, KeyEvent, this, Func)`. -/
  | BindAction (ActionName : String) (KeyEvent : EInputEvent) (Func : Handler)
  /-- The call `PlayerInputComponent->BindAxis(AxisName, this, Func)`. -/
  | BindAxis (AxisName : String) (Func : Handler)
  /-- The call `PlayerInputComponent->BindTouch(KeyEvent, this, Func)`. -/
  | BindTouch (KeyEvent : EInputEvent) (Func : Handler)
  /-- The call `Jump()`. -/
  | Jump
  /-- The call `StopJumping()`. -/
  | StopJumping
  /-- The call `AddControllerYawInput(Val)`. -/
  | AddControllerYawInput (Val : α)
  /-- The call `AddControllerPitchInput(Val)`. -/
  | AddControllerPitchInput (Val : α)
  /-- The call `AddMovementInput(WorldDirection, ScaleValue)`. -/
  | AddMovementInput (WorldDirection : FVector α) (ScaleValue : α)
  /-- The call `GetWorld()->LineTraceSingleByChannel(OutHit, Start, End, Channel, Params)`. -/
  | LineTraceSingleByChannel (Start End : FVector α) (TraceChannel : ECollisionChannel)
      (Params : FCollisionQueryParams)
  /-- The server remote call `ServerInteract(Target)`. -/
  | ServerInteract (Target : Option AActor)
  /-- The interface dispatch `IInteractable::Execute_Interact(Target)`. -/
  | Execute_Interact (Target : AActor)
  deriving DecidableEq, Repr

/-- Whether a call is a remote procedure call. -/
def Call.isRemote {α : Type} : Call α → Bool
  | Call.ServerInteract _ => true
  | _ => false

/-- Whether a call invokes the Interactable handler. -/
def Call.isHandler {α : Type} : Call α → Bool
  | Call.Execute_Interact _ => true
  | _ => false

/-- The name under which a call registers a named action or axis binding, if it does. -/
def Call.boundName {α : Type} : Call α → Option String
  | Call.BindAction ActionName _ _ => some ActionName
  | Call.BindAxis AxisName _ => some AxisName
  | _ => none

/-- The game state a method runs in: the character (`this`) and its world. -/
structure GameState (α : Type) where
  Character : AStarterProjectCharacter α
  World : UWorld α

/-- What a method leaves behind: the game state and the calls it issued, in order. -/
structure Outcome (α : Type) where
  State : GameState α
  Calls : List (Call α)

/-- The input component `UInputComponent` handed to `SetupPlayerInputComponent`. -/
structure UInputComponent where
  Id : Nat
  deriving DecidableEq, Repr

/-! ## The methods of `AStarterProjectCharacter` -/

namespace AStarterProjectCharacter

variable {α : Type} [LinearOrderedField α]

/-- The constructor `AStarterProjectCharacter::AStarterProjectCharacter()`, run on the
state the `ACharacter` constructor left and on the two default subobjects the engine
creates for `CameraBoom` and `FollowCamera`. -/
def AStarterProjectCharacter (Super : ACharacter α) (Boom : USpringArmComponent α)
    (Camera : UCameraComponent α) : AStarterProjectCharacter α :=
  { Actor := Super.Actor
    Controller := Super.Controller
    -- Set size for collision capsule
    CapsuleComponent := Super.CapsuleComponent.InitCapsuleSize 42 96
    -- set our turn rates for input
    BaseTurnRate := 45
    BaseLookUpRate := 45
    -- Do not rotate when the controller rotates; let that just affect the camera
    bUseControllerRotationPitch := false
    bUseControllerRotationYaw := false
    bUseControllerRotationRoll := false
    -- Configure character movement
    CharacterMovement :=
      { Super.CharacterMovement with
        bOrientRotationToMovement := true
        RotationRate := ⟨0, 540, 0⟩
        JumpZVelocity := 600
        AirControl := 2 / 10 }
    -- Create a camera boom
    CameraBoom :=
      { Boom with
        AttachParent := some AttachTarget.RootComponent
        TargetArmLength := 300
        bUsePawnControlRotation := true }
    -- Create a follow camera
    FollowCamera :=
      { Camera with
        AttachParent := some AttachTarget.CameraBoom
        AttachSocketName := some USpringArmComponent.SocketName
        bUsePawnControlRotation := false } }

/-- The method `AStarterProjectCharacter::BeginPlay`. -/
def BeginPlay (S : GameState α) : Outcome α :=
  ⟨S, [Call.Super_BeginPlay]⟩

/-- The method `AStarterProjectCharacter::SetupPlayerInputComponent`. -/
def SetupPlayerInputComponent (S : GameState α) (PlayerInputComponent : Option UInputComponent) :
    Except Fault (Outcome α) :=
  match PlayerInputComponent with
  | none => Except.error Fault.CheckFailed
  | some _ =>
    Except.ok ⟨S,
      [ Call.BindAction "Jump" EInputEvent.IE_Pressed Handler.ACharacter_Jump,
        Call.BindAction "Jump" EInputEvent.IE_Released Handler.ACharacter_StopJumping,
        Call.BindAxis "MoveForward" Handler.MoveForward,
        Call.BindAxis "MoveRight" Handler.MoveRight,
        Call.BindAxis "Turn" Handler.APawn_AddControllerYawInput,
        Call.BindAxis "TurnRate" Handler.TurnAtRate,
        Call.BindAxis "LookUp" Handler.APawn_AddControllerPitchInput,
        Call.BindAxis "LookUpRate" Handler.LookUpAtRate,
        Call.BindAction "Interact" EInputEvent.IE_Pressed Handler.Interact,
        Call.BindTouch EInputEvent.IE_Pressed Handler.TouchStarted,
        Call.BindTouch EInputEvent.IE_Released Handler.TouchStopped ]⟩

/-- The method `AStarterProjectCharacter::TouchStarted`. -/
def TouchStarted (S : GameState α) (_FingerIndex : Nat) (_Location : FVector α) : Outcome α :=
  ⟨S, [Call.Jump]⟩

/-- The method `AStarterProjectCharacter::TouchStopped`. -/
def TouchStopped (S : GameState α) (_FingerIndex : Nat) (_Location : FVector α) : Outcome α :=
  ⟨S, [Call.StopJumping]⟩

/-- The method `AStarterProjectCharacter::TurnAtRate`. -/
def TurnAtRate (S : GameState α) (Rate : α) : Outcome α :=
  ⟨S, [Call.AddControllerYawInput (Rate * S.Character.BaseTurnRate * S.World.GetDeltaSeconds)]⟩

/-- The method `AStarterProjectCharacter::LookUpAtRate`. -/
def LookUpAtRate (S : GameState α) (Rate : α) : Outcome α :=
  ⟨S, [Call.AddControllerPitchInput
    (Rate * S.Character.BaseLookUpRate * S.World.GetDeltaSeconds)]⟩

/-- The method `AStarterProjectCharacter::MoveForward`. -/
def MoveForward (E : FMath α) (S : GameState α) (Value : α) : Outcome α :=
  match S.Character.Controller with
  | some Controller =>
    if Value ≠ 0 then
      -- find out which way is forward
      let Rotation := Controller.GetControlRotation
      let YawRotation : FRotator α := ⟨0, Rotation.Yaw, 0⟩
      -- get forward vector
      let Direction := (FRotationMatrix.ofRotator E YawRotation).GetUnitAxis E EAxis.X
      ⟨S, [Call.AddMovementInput Direction Value]⟩
    else ⟨S, []⟩
  | none => ⟨S, []⟩

/-- The method `AStarterProjectCharacter::MoveRight`. -/
def MoveRight (E : FMath α) (S : GameState α) (Value : α) : Outcome α :=
  match S.Character.Controller with
  | some Controller =>
    if Value ≠ 0 then
      -- find out which way is right
      let Rotation := Controller.GetControlRotation
      let YawRotation : FRotator α := ⟨0, Rotation.Yaw, 0⟩
      -- get right vector
      let Direction := (FRotationMatrix.ofRotator E YawRotation).GetUnitAxis E EAxis.Y
      -- add movement in that direction
      ⟨S, [Call.AddMovementInput Direction Value]⟩
    else ⟨S, []⟩
  | none => ⟨S, []⟩

/-- The method `AStarterProjectCharacter::ServerInteract_Validate`. -/
def ServerInteract_Validate (_S : GameState α) (_Target : Option AActor) : Bool :=
  true

/-- The method `AStarterProjectCharacter::ServerInteract_Implementation`.  The call
`Target->GetClass()` dereferences the target without a null test. -/
def ServerInteract_Implementation (S : GameState α) (Target : Option AActor) :
    Except Fault (Outcome α) :=
  match Target with
  | none => Except.error Fault.NullDereference
  | some T =>
    if T.GetClass.ImplementsInterface UInteractable.StaticClass then
      Except.ok ⟨S, [Call.Execute_Interact T]⟩
    else Except.ok ⟨S, []⟩

/-- The local `TraceParams` of `Interact`. -/
def Interact.TraceParams (S : GameState α) : FCollisionQueryParams :=
  { FCollisionQueryParams.new "SP_Trace" true (some S.Character.Actor) with
    bTraceComplex := true
    bReturnPhysicalMaterial := false }

/-- The local `TraceDirection` of `Interact`. -/
def Interact.TraceDirection (S : GameState α) : FVector α :=
  S.Character.GetFollowCamera.GetForwardVector

/-- The local `StartPosition` of `Interact`. -/
def Interact.StartPosition (S : GameState α) : FVector α :=
  S.Character.GetFollowCamera.GetComponentLocation + Interact.TraceDirection S * (30 : α)

/-- The local `kTraceLength` of `Interact`. -/
def Interact.kTraceLength : α := 5000

/-- The local `EndPosition` of `Interact`. -/
def Interact.EndPosition (S : GameState α) : FVector α :=
  Interact.StartPosition S + Interact.TraceDirection S * (Interact.kTraceLength : α)

/-- The line trace `Interact` performs: the flag `bDidHit` the world returns for it and
the `HitResult` the world writes. -/
def Interact.Trace (S : GameState α) : Bool × FHitResult :=
  S.World.LineTraceSingleByChannel (Interact.StartPosition S) (Interact.EndPosition S)
    ECollisionChannel.ECC_WorldDynamic (Interact.TraceParams S)

/-- The method `AStarterProjectCharacter::Interact`. -/
def Interact (S : GameState α) : Outcome α :=
  let TraceCall : Call α :=
    Call.LineTraceSingleByChannel (Interact.StartPosition S) (Interact.EndPosition S)
      ECollisionChannel.ECC_WorldDynamic (Interact.TraceParams S)
  let bDidHit := (Interact.Trace S).1
  let HitResult := (Interact.Trace S).2
  match bDidHit, HitResult.Actor with
  | true, some Actor =>
    if Actor.GetClass.ImplementsInterface UInteractable.StaticClass then
      ⟨S, [TraceCall, Call.ServerInteract (some Actor)]⟩
    else ⟨S, [TraceCall]⟩
  | _, _ => ⟨S, [TraceCall]⟩

/-- The method `AStarterProjectCharacter::TestMulticast_Validate`. -/
def TestMulticast_Validate (_S : GameState α) : Bool :=
  true

/-- The method `AStarterProjectCharacter::TestMulticast_Implementation`. -/
def TestMulticast_Implementation (S : GameState α) : Outcome α :=
  ⟨S, []⟩

/-- The method `AStarterProjectCharacter::TestRPC_Validate`. -/
def TestRPC_Validate (_S : GameState α) : Bool :=
  true

/-- The method `AStarterProjectCharacter::TestRPC_Implementation`. -/
def TestRPC_Implementation (S : GameState α) : Outcome α :=
  ⟨S, []⟩

end AStarterProjectCharacter

/-- The segment a call traces along, if the call is a line trace. -/
def Call.traceSegment {α : Type} : Call α → Option (FVector α × FVector α)
  | Call.LineTraceSingleByChannel Start End _ _ => some (Start, End)
  | _ => none

/-- An actor whose class implements the Interactable interface. -/
def exampleDoor : AActor := ⟨7, ⟨"Door", ["Interactable"]⟩⟩

/-- An actor whose class implements no interface. -/
def exampleRock : AActor := ⟨8, ⟨"Rock", []⟩⟩

/-- A stand-in for the engine math: sine and cosine are exact at the multiples of a
quarter turn (with `PI` taken as `180`, so that radians are degrees). -/
def exampleMath {α : Type} [LinearOrderedField α] : FMath α :=
  { PI := 180
    Sin := fun x => if x = 90 then 1 else if x = 270 then -1 else 0
    Cos := fun x => if x = 0 then 1 else if x = 180 then -1 else 0
    InvSqrt := fun _ => 1 }

/-- A world whose every line trace reports the given flag and the given hit actor. -/
def exampleWorld {α : Type} [LinearOrderedField α] (bDidHit : Bool) (Hit : Option AActor) :
    UWorld α :=
  { DeltaSeconds := 1 / 60
    LineTraceSingleByChannel := fun _ _ _ _ => (bDidHit, ⟨Hit⟩) }

/-- A constructed character, possessed by the given controller, whose camera sits at
`(0, 0, 100)` and looks along the X axis. -/
def exampleCharacter {α : Type} [LinearOrderedField α] (Controller : Option (AController α)) :
    AStarterProjectCharacter α :=
  AStarterProjectCharacter.AStarterProjectCharacter
    { Actor := ⟨1, ⟨"StarterProjectCharacter", []⟩⟩
      Controller := Controller
      bUseControllerRotationPitch := true
      bUseControllerRotationYaw := true
      bUseControllerRotationRoll := true
      CapsuleComponent := ⟨34, 88⟩
      CharacterMovement := ⟨false, ⟨0, 360, 0⟩, 420, 5 / 100⟩ }
    ⟨none, 300, false⟩
    ⟨none, none, true, ⟨0, 0, 100⟩, ⟨1, 0, 0⟩⟩

/-- The example game state: the example character in the example world. -/
def exampleState {α : Type} [LinearOrderedField α] (Controller : Option (AController α))
    (bDidHit : Bool) (Hit : Option AActor) : GameState α :=
  ⟨exampleCharacter Controller, exampleWorld bDidHit Hit⟩

/-! ## The interact action -/

section Interact

open AStarterProjectCharacter

/-- C1: `Interact` issues the remote call `ServerInteract` if and only if its line trace
reported a hit, the hit actor is not null and the class of the hit actor implements the
Interactable interface; it then issues it exactly once, with the hit actor as argument,
and in every other case it issues no remote call. -/
theorem Interact_issues_ServerInteract_iff {α : Type} [LinearOrderedField α]
    (S : GameState α) :
    ((∃ T, Call.ServerInteract T ∈ (Interact S).Calls) ↔
      ((Interact.Trace S).1 = true ∧ ∃ A, (Interact.Trace S).2.Actor = some A ∧
        A.GetClass.ImplementsInterface UInteractable.StaticClass = true)) ∧
    (∀ A, ((Interact.Trace S).1 = true ∧ (Interact.Trace S).2.Actor = some A ∧
        A.GetClass.ImplementsInterface UInteractable.StaticClass = true) →
      (Interact S).Calls.filter Call.isRemote = [Call.ServerInteract (some A)]) ∧
    (¬ ((Interact.Trace S).1 = true ∧ ∃ A, (Interact.Trace S).2.Actor = some A ∧
        A.GetClass.ImplementsInterface UInteractable.StaticClass = true) →
      (Interact S).Calls.filter Call.isRemote = []) := by
  unfold Interact
  generalize Interact.Trace S = r
  obtain ⟨b, ⟨actor⟩⟩ := r
  cases b <;> cases actor <;> simp [Call.isRemote]
  rename_i A
  by_cases hi : UClass.ImplementsInterface (AActor.GetClass A) UInteractable.StaticClass = true <;>
    simp [hi, Call.isRemote]

/-- C1, at a concrete state: with the example character in a world whose trace hits the
door (whose class implements the interface), `Interact` issues the line trace and then
the single remote call on the door. -/
theorem Interact_issues_ServerInteract_iff_witness :
    (Interact (exampleState none true (some exampleDoor) : GameState ℚ)).Calls.filter
        Call.isRemote = [Call.ServerInteract (some exampleDoor)] ∧
      (Interact (exampleState none true (some exampleRock) : GameState ℚ)).Calls.filter
        Call.isRemote = [] :=
  ⟨(Interact_issues_ServerInteract_iff (exampleState none true (some exampleDoor))).2.1
      exampleDoor (by decide),
    (Interact_issues_ServerInteract_iff (exampleState none true (some exampleRock))).2.2
      (by decide)⟩

/-- C2: on a target that is not null, `ServerInteract_Implementation` returns normally;
it invokes the Interactable handler on the target exactly once when the class of the
target implements the interface and invokes no handler when it does not; it never
invokes the handler on another actor, and it leaves the game state as it was. -/
theorem ServerInteract_Implementation_invokes_handler {α : Type} (S : GameState α)
    (T : AActor) :
    ∃ O, ServerInteract_Implementation S (some T) = Except.ok O ∧ O.State = S ∧
      (T.GetClass.ImplementsInterface UInteractable.StaticClass = true →
        O.Calls.filter Call.isHandler = [Call.Execute_Interact T]) ∧
      (T.GetClass.ImplementsInterface UInteractable.StaticClass = false →
        O.Calls.filter Call.isHandler = []) ∧
      (∀ A, Call.Execute_Interact A ∈ O.Calls → A = T) := by
  unfold ServerInteract_Implementation
  by_cases hi : UClass.ImplementsInterface (AActor.GetClass T) UInteractable.StaticClass = true
  · exact ⟨⟨S, [Call.Execute_Interact T]⟩, by simp [hi, Call.isHandler]⟩
  · exact ⟨⟨S, []⟩, by simp [hi]⟩

/-- C2, at concrete targets: on the door the handler runs once on the door, on the rock
no handler runs. -/
theorem ServerInteract_Implementation_invokes_handler_witness :
    (∃ O, ServerInteract_Implementation (exampleState none false none : GameState ℚ)
        (some exampleDoor) = Except.ok O ∧
        O.Calls.filter Call.isHandler = [Call.Execute_Interact exampleDoor]) ∧
      (∃ O, ServerInteract_Implementation (exampleState none false none : GameState ℚ)
        (some exampleRock) = Except.ok O ∧ O.Calls.filter Call.isHandler = []) :=
  ⟨(ServerInteract_Implementation_invokes_handler (exampleState none false none)
      exampleDoor).imp fun _ h => ⟨h.1, h.2.2.1 (by decide)⟩,
    (ServerInteract_Implementation_invokes_handler (exampleState none false none)
      exampleRock).imp fun _ h => ⟨h.1, h.2.2.2.1 (by decide)⟩⟩

/-- C3, the code on a null target: a remote call whose target is null passes
`ServerInteract_Validate`, and `ServerInteract_Implementation` then dereferences the null
target instead of returning. -/
theorem ServerInteract_Implementation_null_target {α : Type} (S : GameState α) :
    ServerInteract_Validate S none = true ∧
      ServerInteract_Implementation S none = Except.error Fault.NullDereference :=
  ⟨rfl, rfl⟩

/-- C8: no validation function ever rejects a remote call (`ServerInteract_Validate` is
true for every target, null or not and whatever the state of the caller and the world;
`TestRPC_Validate` and `TestMulticast_Validate` are true), so for an actor named by the
client the handler runs on the server exactly when the class of that actor implements
the Interactable interface. -/
theorem Validate_never_rejects {α : Type} (S : GameState α) :
    (∀ Target, ServerInteract_Validate S Target = true) ∧
      TestRPC_Validate S = true ∧ TestMulticast_Validate S = true ∧
      (∀ T : AActor, ∃ O, ServerInteract_Implementation S (some T) = Except.ok O ∧
        ((ServerInteract_Validate S (some T) = true ∧ Call.Execute_Interact T ∈ O.Calls) ↔
          T.GetClass.ImplementsInterface UInteractable.StaticClass = true)) := by
  refine ⟨fun _ => rfl, rfl, rfl, fun T => ?_⟩
  unfold ServerInteract_Implementation
  by_cases hi : UClass.ImplementsInterface (AActor.GetClass T) UInteractable.StaticClass = true
  · exact ⟨⟨S, [Call.Execute_Interact T]⟩, by simp [hi, ServerInteract_Validate]⟩
  · exact ⟨⟨S, []⟩, by simp [hi]⟩

/-- C7: the two test remote procedures are no-ops: each returns the game state (the
character and the world) it was given and issues no call. -/
theorem Test_procedures_are_noops {α : Type} (S : GameState α) :
    (TestRPC_Implementation S).State = S ∧ (TestRPC_Implementation S).Calls = [] ∧
      (TestMulticast_Implementation S).State = S ∧
      (TestMulticast_Implementation S).Calls = [] :=
  ⟨rfl, rfl, rfl, rfl⟩

end Interact

/-! ## Input bindings and movement -/

section Input

open AStarterProjectCharacter

/-- C6: for an input component that is not null, `SetupPlayerInputComponent` returns
normally and the names under which it registers action and axis bindings are exactly
Jump, MoveForward, MoveRight, Turn, TurnRate, LookUp, LookUpRate and Interact. -/
theorem SetupPlayerInputComponent_bound_names {α : Type} (S : GameState α)
    (PlayerInputComponent : UInputComponent) :
    ∃ O, SetupPlayerInputComponent S (some PlayerInputComponent) = Except.ok O ∧
      ∀ Name : String, Name ∈ O.Calls.filterMap Call.boundName ↔
        Name ∈ ["Jump", "MoveForward", "MoveRight", "Turn", "TurnRate", "LookUp",
          "LookUpRate", "Interact"] := by
  refine ⟨_, rfl, fun Name => ?_⟩
  simp only [List.filterMap_cons, List.filterMap_nil, Call.boundName, List.mem_cons]
  tauto

/-- C4: `MoveForward` and `MoveRight` each add movement input if and only if the
character has a controller and `Value` is not zero; they then issue `AddMovementInput`
exactly once, with scale `Value`; with no controller or with `Value` zero they issue no
call and leave the game state as it was. -/
theorem Move_adds_input_iff {α : Type} [LinearOrderedField α] (E : FMath α)
    (S : GameState α) (Value : α) :
    (((∃ D V, Call.AddMovementInput D V ∈ (MoveForward E S Value).Calls) ↔
        (S.Character.Controller ≠ none ∧ Value ≠ 0)) ∧
      ((S.Character.Controller ≠ none ∧ Value ≠ 0) →
        ∃ D, (MoveForward E S Value).Calls = [Call.AddMovementInput D Value]) ∧
      ((S.Character.Controller = none ∨ Value = 0) →
        (MoveForward E S Value).Calls = [] ∧ (MoveForward E S Value).State = S)) ∧
    (((∃ D V, Call.AddMovementInput D V ∈ (MoveRight E S Value).Calls) ↔
        (S.Character.Controller ≠ none ∧ Value ≠ 0)) ∧
      ((S.Character.Controller ≠ none ∧ Value ≠ 0) →
        ∃ D, (MoveRight E S Value).Calls = [Call.AddMovementInput D Value]) ∧
      ((S.Character.Controller = none ∨ Value = 0) →
        (MoveRight E S Value).Calls = [] ∧ (MoveRight E S Value).State = S)) := by
  unfold MoveForward MoveRight
  rcases hc : S.Character.Controller with _ | C
  · simp
  · by_cases hv : Value = 0 <;> simp [hv]

/-- C4, at concrete states: with a controller and `Value = 1` the example character
adds movement input once; without a controller it does nothing. -/
theorem Move_adds_input_iff_witness :
    (∃ D, (MoveForward exampleMath (exampleState (some ⟨⟨0, 90, 0⟩⟩) false none : GameState ℚ)
        1).Calls = [Call.AddMovementInput D 1]) ∧
      (MoveRight exampleMath (exampleState none false none : GameState ℚ) 1).Calls = [] :=
  ⟨(Move_adds_input_iff exampleMath (exampleState (some ⟨⟨0, 90, 0⟩⟩) false none) 1).1.2.1
      ⟨by simp [exampleState, exampleCharacter, AStarterProjectCharacter.AStarterProjectCharacter],
        one_ne_zero⟩,
    ((Move_adds_input_iff exampleMath (exampleState none false none) 1).2.2.2
      (Or.inl rfl)).1⟩

/-- C10: `TurnAtRate` adds yaw input `Rate * BaseTurnRate * DeltaSeconds` and
`LookUpAtRate` adds pitch input `Rate * BaseLookUpRate * DeltaSeconds`, each exactly once
and also when the rate is zero; on a character left as constructed both base rates are
45, so the input added is `45 * Rate * DeltaSeconds`, which is zero at rate zero. -/
theorem TurnAtRate_LookUpAtRate_input {α : Type} [LinearOrderedField α] (S : GameState α)
    (Rate : α) :
    (TurnAtRate S Rate).Calls =
        [Call.AddControllerYawInput (Rate * S.Character.BaseTurnRate * S.World.DeltaSeconds)] ∧
      (LookUpAtRate S Rate).Calls =
        [Call.AddControllerPitchInput
          (Rate * S.Character.BaseLookUpRate * S.World.DeltaSeconds)] ∧
      (TurnAtRate S 0).Calls = [Call.AddControllerYawInput 0] ∧
      (LookUpAtRate S 0).Calls = [Call.AddControllerPitchInput 0] ∧
      ∀ (Super : ACharacter α) (Boom : USpringArmComponent α) (Camera : UCameraComponent α),
        (AStarterProjectCharacter.AStarterProjectCharacter Super Boom Camera).BaseTurnRate = 45 ∧
        (AStarterProjectCharacter.AStarterProjectCharacter Super Boom Camera).BaseLookUpRate
          = 45 ∧
        (TurnAtRate ⟨AStarterProjectCharacter.AStarterProjectCharacter Super Boom Camera,
            S.World⟩ Rate).Calls
          = [Call.AddControllerYawInput (45 * Rate * S.World.DeltaSeconds)] ∧
        (LookUpAtRate ⟨AStarterProjectCharacter.AStarterProjectCharacter Super Boom Camera,
            S.World⟩ Rate).Calls
          = [Call.AddControllerPitchInput (45 * Rate * S.World.DeltaSeconds)] ∧
        (TurnAtRate ⟨AStarterProjectCharacter.AStarterProjectCharacter Super Boom Camera,
            S.World⟩ 0).Calls = [Call.AddControllerYawInput 0] ∧
        (LookUpAtRate ⟨AStarterProjectCharacter.AStarterProjectCharacter Super Boom Camera,
            S.World⟩ 0).Calls = [Call.AddControllerPitchInput 0] := by
  refine ⟨rfl, rfl, ?_, ?_, fun Super Boom Camera => ⟨rfl, rfl, ?_, ?_, ?_, ?_⟩⟩ <;>
    simp [TurnAtRate, LookUpAtRate, UWorld.GetDeltaSeconds,
      AStarterProjectCharacter.AStarterProjectCharacter, mul_comm]

/-- C9: the movement direction depends only on the yaw of the control rotation.  For two
states whose controllers have the same yaw (pitch and roll arbitrary) and the same
non-zero `Value`, `MoveForward` passes the same direction to `AddMovementInput`, and so
does `MoveRight`; the two directions are the unit X and Y axes of the rotation
(pitch 0, yaw, roll 0), they have zero vertical component and they are perpendicular.
The engine sine is assumed to vanish at zero. -/
theorem Move_direction_depends_only_on_yaw {α : Type} [LinearOrderedField α] (E : FMath α)
    (hsin : E.Sin 0 = 0) (S₁ S₂ : GameState α) (C₁ C₂ : AController α)
    (h₁ : S₁.Character.Controller = some C₁) (h₂ : S₂.Character.Controller = some C₂)
    (hyaw : C₁.GetControlRotation.Yaw = C₂.GetControlRotation.Yaw)
    (Value : α) (hV : Value ≠ 0) :
    ∃ Forward Right : FVector α,
      (MoveForward E S₁ Value).Calls = [Call.AddMovementInput Forward Value] ∧
      (MoveForward E S₂ Value).Calls = [Call.AddMovementInput Forward Value] ∧
      (MoveRight E S₁ Value).Calls = [Call.AddMovementInput Right Value] ∧
      (MoveRight E S₂ Value).Calls = [Call.AddMovementInput Right Value] ∧
      Forward = (FRotationMatrix.ofRotator E ⟨0, C₁.GetControlRotation.Yaw, 0⟩).GetUnitAxis E
        EAxis.X ∧
      Right = (FRotationMatrix.ofRotator E ⟨0, C₁.GetControlRotation.Yaw, 0⟩).GetUnitAxis E
        EAxis.Y ∧
      Forward.Z = 0 ∧ Right.Z = 0 ∧ FVector.DotProduct Forward Right = 0 := by
  refine ⟨_, _, ?_, ?_, ?_, ?_, rfl, rfl, ?_, ?_, ?_⟩
  · simp [MoveForward, h₁, hV]
  · simp [MoveForward, h₂, hV, hyaw]
  · simp [MoveRight, h₁, hV]
  · simp [MoveRight, h₂, hV, hyaw]
  · simp only [FRotationMatrix.GetUnitAxis, FRotationMatrix.GetScaledAxis,
      FRotationMatrix.ofRotator, FMath.GetSafeNormal, FMath.DegreesToRadians, zero_mul, hsin]
    split_ifs <;> simp [FVector.ZeroVector]
  · simp only [FRotationMatrix.GetUnitAxis, FRotationMatrix.GetScaledAxis,
      FRotationMatrix.ofRotator, FMath.GetSafeNormal, FMath.DegreesToRadians, zero_mul, hsin]
    split_ifs <;> simp [FVector.ZeroVector]
  · simp only [FRotationMatrix.GetUnitAxis, FRotationMatrix.GetScaledAxis,
      FRotationMatrix.ofRotator, FMath.GetSafeNormal, FMath.DegreesToRadians, zero_mul, hsin]
    split_ifs <;> simp [FVector.ZeroVector, FVector.DotProduct] <;> ring

/-- C9, at concrete states: two controllers with yaw 90 and different pitch and roll,
`Value = 1`, and the example engine math. -/
theorem Move_direction_depends_only_on_yaw_witness :
    ∃ Forward Right : FVector ℚ,
      (MoveForward exampleMath (exampleState (some ⟨⟨10, 90, 20⟩⟩) false none) 1).Calls
        = [Call.AddMovementInput Forward 1] ∧
      (MoveForward exampleMath (exampleState (some ⟨⟨-30, 90, 5⟩⟩) false none) 1).Calls
        = [Call.AddMovementInput Forward 1] ∧
      (MoveRight exampleMath (exampleState (some ⟨⟨10, 90, 20⟩⟩) false none) 1).Calls
        = [Call.AddMovementInput Right 1] ∧
      (MoveRight exampleMath (exampleState (some ⟨⟨-30, 90, 5⟩⟩) false none) 1).Calls
        = [Call.AddMovementInput Right 1] ∧
      Forward = (FRotationMatrix.ofRotator exampleMath ⟨0, 90, 0⟩).GetUnitAxis exampleMath
        EAxis.X ∧
      Right = (FRotationMatrix.ofRotator exampleMath ⟨0, 90, 0⟩).GetUnitAxis exampleMath
        EAxis.Y ∧
      Forward.Z = 0 ∧ Right.Z = 0 ∧ FVector.DotProduct Forward Right = 0 :=
  Move_direction_depends_only_on_yaw exampleMath (by simp [exampleMath])
    (exampleState (some ⟨⟨10, 90, 20⟩⟩) false none)
    (exampleState (some ⟨⟨-30, 90, 5⟩⟩) false none) ⟨⟨10, 90, 20⟩⟩ ⟨⟨-30, 90, 5⟩⟩ rfl rfl rfl
    1 one_ne_zero

end Input

/-! ## The trace segment of the interact action -/

section TraceSegment

open AStarterProjectCharacter

/-- C5: with `P` the camera location and `D` the camera forward vector, `Interact` traces
along exactly one segment, from `P + 30 * D` to that start plus `5000 * D`, which is
`P + 5030 * D`; the world is queried with the same segment; start and end lie on the line
through `P` along `D`; and when `D` is a unit vector the segment has length 5000 and its
start is at distance 30 from `P`. -/
theorem Interact_trace_segment (S : GameState ℝ) :
    (Interact S).Calls.filterMap Call.traceSegment =
        [(S.Character.FollowCamera.ComponentLocation
            + S.Character.FollowCamera.ForwardVector * (30 : ℝ),
          S.Character.FollowCamera.ComponentLocation
            + S.Character.FollowCamera.ForwardVector * (30 : ℝ)
            + S.Character.FollowCamera.ForwardVector * (5000 : ℝ))] ∧
      Interact.Trace S = S.World.LineTraceSingleByChannel
        (S.Character.FollowCamera.ComponentLocation
          + S.Character.FollowCamera.ForwardVector * (30 : ℝ))
        (S.Character.FollowCamera.ComponentLocation
          + S.Character.FollowCamera.ForwardVector * (30 : ℝ)
          + S.Character.FollowCamera.ForwardVector * (5000 : ℝ))
        ECollisionChannel.ECC_WorldDynamic (Interact.TraceParams S) ∧
      Interact.StartPosition S = S.Character.FollowCamera.ComponentLocation
        + S.Character.FollowCamera.ForwardVector * (30 : ℝ) ∧
      Interact.EndPosition S = Interact.StartPosition S
        + S.Character.FollowCamera.ForwardVector * (5000 : ℝ) ∧
      Interact.EndPosition S = S.Character.FollowCamera.ComponentLocation
        + S.Character.FollowCamera.ForwardVector * (5030 : ℝ) ∧
      Interact.StartPosition S - S.Character.FollowCamera.ComponentLocation
        = S.Character.FollowCamera.ForwardVector * (30 : ℝ) ∧
      Interact.EndPosition S - S.Character.FollowCamera.ComponentLocation
        = S.Character.FollowCamera.ForwardVector * (5030 : ℝ) ∧
      (FVector.SizeSquared S.Character.FollowCamera.ForwardVector = 1 →
        Real.sqrt (FVector.SizeSquared (Interact.EndPosition S - Interact.StartPosition S))
          = 5000 ∧
        Real.sqrt (FVector.SizeSquared
          (Interact.StartPosition S - S.Character.FollowCamera.ComponentLocation)) = 30) := by
  have hmul : ∀ (v : FVector ℝ) (s : ℝ), v * s = ⟨v.X * s, v.Y * s, v.Z * s⟩ := fun _ _ => rfl
  have hadd : ∀ a b : FVector ℝ, a + b = ⟨a.X + b.X, a.Y + b.Y, a.Z + b.Z⟩ := fun _ _ => rfl
  have hsub : ∀ a b : FVector ℝ, a - b = ⟨a.X - b.X, a.Y - b.Y, a.Z - b.Z⟩ := fun _ _ => rfl
  refine ⟨?_, rfl, rfl, rfl, ?_, ?_, ?_, ?_⟩
  · unfold Interact
    generalize Interact.Trace S = r
    obtain ⟨b, ⟨actor⟩⟩ := r
    cases b <;> cases actor <;> try rfl
    rename_i A
    by_cases hi : UClass.ImplementsInterface (AActor.GetClass A) UInteractable.StaticClass = true
    · simp only [hi, if_true]; rfl
    · simp only [hi]; rfl
  · simp only [Interact.EndPosition, Interact.StartPosition, Interact.TraceDirection,
      Interact.kTraceLength, GetFollowCamera, UCameraComponent.GetForwardVector,
      UCameraComponent.GetComponentLocation, hmul, hadd, FVector.mk.injEq]
    refine ⟨?_, ?_, ?_⟩ <;> ring
  · simp only [Interact.StartPosition, Interact.TraceDirection,
      GetFollowCamera, UCameraComponent.GetForwardVector,
      UCameraComponent.GetComponentLocation, hmul, hadd, hsub, FVector.mk.injEq]
    refine ⟨?_, ?_, ?_⟩ <;> ring
  · simp only [Interact.EndPosition, Interact.StartPosition, Interact.TraceDirection,
      Interact.kTraceLength, GetFollowCamera, UCameraComponent.GetForwardVector,
      UCameraComponent.GetComponentLocation, hmul, hadd, hsub, FVector.mk.injEq]
    refine ⟨?_, ?_, ?_⟩ <;> ring
  · intro hD
    simp only [FVector.SizeSquared] at hD
    constructor
    · have h : FVector.SizeSquared (Interact.EndPosition S - Interact.StartPosition S)
          = 5000 ^ 2 := by
        simp only [Interact.EndPosition, Interact.StartPosition, Interact.TraceDirection,
          Interact.kTraceLength, GetFollowCamera, UCameraComponent.GetForwardVector,
          UCameraComponent.GetComponentLocation, hmul, hadd, hsub, FVector.SizeSquared]
        linear_combination (5000 ^ 2 : ℝ) * hD
      rw [h]
      exact Real.sqrt_sq (by norm_num)
    · have h : FVector.SizeSquared
          (Interact.StartPosition S - S.Character.FollowCamera.ComponentLocation)
          = 30 ^ 2 := by
        simp only [Interact.StartPosition, Interact.TraceDirection,
          GetFollowCamera, UCameraComponent.GetForwardVector,
          UCameraComponent.GetComponentLocation, hmul, hadd, hsub, FVector.SizeSquared]
        linear_combination (30 ^ 2 : ℝ) * hD
      rw [h]
      exact Real.sqrt_sq (by norm_num)

/-- C5, at a concrete state: the camera of the example character sits at `(0, 0, 100)`
and looks along the unit vector `(1, 0, 0)`, so the segment runs from `(30, 0, 100)` to
`(5030, 0, 100)`, has length 5000 and starts 30 in front of the camera. -/
theorem Interact_trace_segment_witness :
    FVector.SizeSquared
        (exampleState none false none : GameState ℝ).Character.FollowCamera.ForwardVector = 1 ∧
      Interact.StartPosition (exampleState none false none : GameState ℝ) = ⟨30, 0, 100⟩ ∧
      Interact.EndPosition (exampleState none false none : GameState ℝ) = ⟨5030, 0, 100⟩ ∧
      Real.sqrt (FVector.SizeSquared
        (Interact.EndPosition (exampleState none false none : GameState ℝ)
          - Interact.StartPosition (exampleState none false none))) = 5000 ∧
      Real.sqrt (FVector.SizeSquared
        (Interact.StartPosition (exampleState none false none : GameState ℝ)
          - (exampleState none false none : GameState ℝ).Character.FollowCamera.ComponentLocation))
        = 30 :=
  have hmul : ∀ (v : FVector ℝ) (s : ℝ), v * s = ⟨v.X * s, v.Y * s, v.Z * s⟩ := fun _ _ => rfl
  have hadd : ∀ a b : FVector ℝ, a + b = ⟨a.X + b.X, a.Y + b.Y, a.Z + b.Z⟩ := fun _ _ => rfl
  have hD : FVector.SizeSquared
      (exampleState none false none : GameState ℝ).Character.FollowCamera.ForwardVector = 1 := by
    norm_num [FVector.SizeSquared, exampleState, exampleCharacter,
      AStarterProjectCharacter.AStarterProjectCharacter]
  ⟨hD,
    by
      rw [(Interact_trace_segment (exampleState none false none)).2.2.1]
      norm_num [exampleState, exampleCharacter,
        AStarterProjectCharacter.AStarterProjectCharacter, hmul, hadd],
    by
      rw [(Interact_trace_segment (exampleState none false none)).2.2.2.2.1]
      norm_num [exampleState, exampleCharacter,
        AStarterProjectCharacter.AStarterProjectCharacter, hmul, hadd],
    (Interact_trace_segment (exampleState none false none)).2.2.2.2.2.2.2 hD⟩

end TraceSegment

end StarterProject
